import Mathlib

/-!
Shallow embedding of the studi-backend mock API (FastAPI, Python) and proofs
about its route handlers.

Source layout embedded here:
- src/routers/agents.py : query synthesis (mock_agent_response), plan creation,
  task status, and the websocket loop.
- src/routers/users.py : in-memory profile store and its four handlers.
- src/routers/docs.py : static documentation catalog, content lookup, search.

Python dictionaries are embedded as association lists with Python dict
semantics (insert overwrites in place, new keys are appended at the end,
dict.update folds the update pairs in from the left). Python strings are
Lean Strings; str.lower is embedded character by character via Char.toLower,
which coincides with Python on the ASCII data involved. Fallible handlers
return Except. Handlers that touch the profile store take the store and
return the updated store explicitly.
-/

/-- JSON values, as produced by json.loads and consumed by send_json. -/
inductive Json where
  | null : Json
  | bool (b : Bool) : Json
  | num (n : Int) : Json
  | str (s : String) : Json
  | arr (elems : List Json) : Json
  | obj (fields : List (String × Json)) : Json

/-- Lowercase a string character by character (Python str.lower on ASCII). -/
def strLower (s : String) : String :=
  ⟨s.data.map Char.toLower⟩

/-- Does list h start with list n? -/
def listStarts (n h : List Char) : Bool :=
  match n, h with
  | [], _ => true
  | _ :: _, [] => false
  | a :: as, b :: bs => a == b && listStarts as bs

/-- Does list h contain n as a contiguous sublist? -/
def listHas (h n : List Char) : Bool :=
  listStarts n h ||
    match h with
    | [] => false
    | _ :: hs => listHas hs n

/-- Python substring test: needle in haystack. -/
def strContains (haystack needle : String) : Bool :=
  listHas haystack.data needle.data

/-- First-match lookup in an association list (Python dict indexing / get). -/
def alGet {α : Type} (d : List (String × α)) (k : String) : Option α :=
  match d with
  | [] => none
  | (k2, v) :: rest => if k = k2 then some v else alGet rest k

/-- Python dict item assignment: overwrite the existing entry in place if the
key is present, otherwise append the new entry at the end. -/
def alInsert {α : Type} (d : List (String × α)) (k : String) (v : α) :
    List (String × α) :=
  match d with
  | [] => [(k, v)]
  | (k2, w) :: rest =>
    if k = k2 then (k, v) :: rest else (k2, w) :: alInsert rest k v

/-- Python dict.update: fold the update pairs into the base dict from the
left. -/
def alUpdate {α : Type} (d u : List (String × α)) : List (String × α) :=
  u.foldl (fun acc kv => alInsert acc kv.1 kv.2) d

/-- Last-occurrence lookup: the value for k that survives when the pairs are
folded into a dict left to right. For pairs coming from a Python dict the
keys are distinct and this agrees with alGet. -/
def alGetLast {α : Type} (d : List (String × α)) (k : String) : Option α :=
  match d with
  | [] => none
  | (k2, v) :: rest =>
    match alGetLast rest k with
    | some w => some w
    | none => if k = k2 then some v else none

/-- Python: a value that is the new field when provided, the old one
otherwise (the if x is not None pattern of update_user_profile). -/
def pyOverride {α : Type} (new old : Option α) : Option α :=
  match new with
  | some v => some v
  | none => old

/-! ## src/routers/agents.py -/

/-- A source reference as built by mock_agent_response:
a dict with string title and url. -/
structure SourceRef where
  title : String
  url : String
deriving DecidableEq

/-- Shape of the dict returned by mock_agent_response (response_model
AgentResponse). All context values built by the function are strings. -/
structure AgentResponse where
  response : String
  sources : List SourceRef
  context : List (String × String)
deriving DecidableEq

/-- agents.py lines 32-69: mock_agent_response. The context argument is
accepted and ignored, as in the source; the asyncio.sleep is timing only
and has no effect on the returned value. -/
def mock_agent_response (query : String) (_context : Option Json) :
    AgentResponse :=
  if strContains (strLower query) "study guide" then
    { response := "I\x27ve created a study guide for your topic. Here are the key points to focus on...",
      sources :=
        [ ⟨"Textbook Chapter 5", "https://example.com/textbook/chapter5"⟩,
          ⟨"Lecture Notes Week 3", "https://example.com/lectures/week3"⟩ ],
      context :=
        [ ("topic", "Machine Learning Fundamentals"),
          ("created_at", "2023-06-15T10:30:00Z") ] }
  else if strContains (strLower query) "assignment" then
    { response := "I\x27ll help you with this assignment. Let\x27s break it down step by step...",
      sources :=
        [ ⟨"Assignment Guidelines", "https://example.com/assignments/guidelines"⟩,
          ⟨"Related Examples", "https://example.com/examples"⟩ ],
      context :=
        [ ("assignment_type", "Problem Set"),
          ("due_date", "2023-06-20T23:59:00Z") ] }
  else
    { response := "I understand you\x27re asking about: " ++ query ++ ". How can I help you with this topic?",
      sources := [],
      context :=
        [ ("query_type", "general"),
          ("timestamp", "2023-06-15T10:30:00Z") ] }

/-- A plan step dict as built by create_plan. -/
structure PlanStep where
  step_id : String
  description : String
  status : String
deriving DecidableEq

/-- Shape of the dict returned by create_plan (response_model AgentPlan).
All context values built by the handler are strings. -/
structure AgentPlan where
  steps : List PlanStep
  context : List (String × String)

/-- agents.py lines 83-123: POST /plan. The steps are a fixed literal; only
the context echoes the input query. -/
def create_plan (query : String) : AgentPlan :=
  { steps :=
      [ ⟨"1", "Analyze the query and identify key topics", "completed"⟩,
        ⟨"2", "Retrieve relevant information from knowledge base", "in_progress"⟩,
        ⟨"3", "Generate comprehensive response", "pending"⟩,
        ⟨"4", "Review and refine response for accuracy", "pending"⟩ ],
    context :=
      [ ("query", query),
        ("plan_id", "plan-123456"),
        ("created_at", "2023-06-15T10:30:00Z") ] }

/-- Shape of the dict returned by get_task_status (response_model AgentTask).
The Python float progress is embedded as a rational. -/
structure AgentTask where
  task_id : String
  status : String
  progress : ℚ
  result : Option (List (String × Json))

/-- agents.py lines 125-139: GET /tasks/{task_id}: a fixed literal except for
the echoed task id. -/
def get_task_status (task_id : String) : AgentTask :=
  { task_id := task_id,
    status := "in_progress",
    progress := 0.65,
    result := none }

/-- Incoming websocket events as seen by the loop of websocket_endpoint
(agents.py lines 142-171): a received text frame, or a peer disconnect
(the WebSocketDisconnect raised by receive_text). -/
inductive WsEvent where
  | text (data : String) : WsEvent
  | disconnect : WsEvent

/-- The JSON value that send_json serializes for a synthesized response dict. -/
def agentResponseToJson (r : AgentResponse) : Json :=
  Json.obj
    [ ("response", Json.str r.response),
      ("sources", Json.arr (r.sources.map fun s =>
        Json.obj [("title", Json.str s.title), ("url", Json.str s.url)])),
      ("context", Json.obj (r.context.map fun p => (p.1, Json.str p.2))) ]

/-- agents.py lines 152-160 and 165-168: the body run on a successfully
parsed message. message.get("query", "") and message.get("context", \x7b\x7d)
need the message to be an object and the query value to be a string for
query.lower() to exist; otherwise the Python body raises and the
except Exception arm sends an error frame whose text starts with
"Error processing request: " followed by str(e) (the exact str(e) suffix is
interpreter detail; it is embedded as a fixed description). -/
def wsProcessMessage (m : Json) : Json :=
  match m with
  | Json.obj fields =>
    match (alGet fields "query").getD (Json.str "") with
    | Json.str q =>
      agentResponseToJson
        (mock_agent_response q (some ((alGet fields "context").getD (Json.obj []))))
    | _ =>
      Json.obj [("error", Json.str "Error processing request: query value has no attribute lower")]
  | _ =>
    Json.obj [("error", Json.str "Error processing request: message has no attribute get")]

/-- agents.py lines 148-168: handling of one received text frame.
json.loads is Python standard-library code, so it is passed as a parameter
parse that returns none exactly when the frame raises json.JSONDecodeError. -/
def wsHandleFrame (parse : String → Option Json) (data : String) : Json :=
  match parse data with
  | none => Json.obj [("error", Json.str "Invalid JSON format")]
  | some m => wsProcessMessage m

/-- agents.py lines 145-171: the websocket loop over a finite trace of
incoming events: one reply frame per received text frame; on disconnect the
loop exits and sends nothing further. -/
def wsLoop (parse : String → Option Json) : List WsEvent → List Json
  | [] => []
  | WsEvent.disconnect :: _ => []
  | WsEvent.text d :: rest => wsHandleFrame parse d :: wsLoop parse rest

/-- The payloads of the text frames received before the first disconnect. -/
def wsTexts : List WsEvent → List String
  | [] => []
  | WsEvent.disconnect :: _ => []
  | WsEvent.text d :: rest => d :: wsTexts rest

/-- A concrete stand-in parser used to witness the websocket theorems:
it accepts exactly the frame "ok", as an object with query "hi". -/
def wparse : String → Option Json :=
  fun s => if s = "ok" then some (Json.obj [("query", Json.str "hi")]) else none

/-! ## src/routers/users.py -/

/-- Modelled from the spec: the Identity resolved by the auth module.
src/routers/auth.py is not among the sources; section 3 of the spec gives
Identity a unique non-empty username, optional email and full name, and an
active flag. users.py reads username, email and full_name from it. -/
structure User where
  username : String
  email : Option String
  full_name : Option String
  active : Bool
deriving DecidableEq

/-- A profile record as stored in fake_profiles_db. Every record the code
ever stores carries all six keys, with preferences always a dict, so the
record is embedded as a structure. -/
structure UserProfile where
  username : String
  email : Option String
  full_name : Option String
  bio : Option String
  avatar_url : Option String
  preferences : List (String × Json)

/-- users.py lines 18-23: the UserProfileUpdate model; every field optional. -/
structure UserProfileUpdate where
  email : Option String
  full_name : Option String
  bio : Option String
  avatar_url : Option String
  preferences : Option (List (String × Json))

/-- The profile store: username keyed dict of records. -/
abbrev ProfilesDb := List (String × UserProfile)

/-- The johndoe record of the initial fake_profiles_db (users.py lines
27-38). -/
def johndoeProfile : UserProfile :=
  { username := "johndoe",
    email := some "johndoe@example.com",
    full_name := some "John Doe",
    bio := some "I am a student interested in computer science and mathematics.",
    avatar_url := some "https://example.com/avatars/johndoe.jpg",
    preferences :=
      [ ("theme", Json.str "dark"),
        ("notifications", Json.bool true),
        ("study_reminder", Json.bool true) ] }

/-- users.py lines 26-39: the initial in-memory profile store. -/
def fake_profiles_db : ProfilesDb :=
  [("johndoe", johndoeProfile)]

/-- The default preferences dict (users.py lines 55-59, 80-84, 120-124). -/
def defaultPreferences : List (String × Json) :=
  [ ("theme", Json.str "light"),
    ("notifications", Json.bool true),
    ("study_reminder", Json.bool false) ]

/-- The default profile created for a missing username by GET /profile and
PUT /profile (users.py lines 49-60 and 74-85): bio and avatar empty, email
and full name copied from the current user, light-theme preferences. -/
def defaultProfile (u : User) : UserProfile :=
  { username := u.username,
    email := u.email,
    full_name := u.full_name,
    bio := none,
    avatar_url := none,
    preferences := defaultPreferences }

/-- The profile created for a missing username by PUT /preferences
(users.py lines 138-145): like defaultProfile but with empty preferences. -/
def emptyPrefsProfile (u : User) : UserProfile :=
  { username := u.username,
    email := u.email,
    full_name := u.full_name,
    bio := none,
    avatar_url := none,
    preferences := [] }

/-- users.py lines 42-62: GET /profile. Inserts a default record when the
username is absent, then returns the stored record. -/
def get_user_profile (u : User) (db : ProfilesDb) : UserProfile × ProfilesDb :=
  let db2 :=
    if (alGet db u.username).isSome then db
    else alInsert db u.username (defaultProfile u)
  ((alGet db2 u.username).getD (defaultProfile u), db2)

/-- users.py lines 64-112: PUT /profile. Ensures a record exists, overwrites
each provided field, merges provided preferences with dict.update, stores
and returns the updated record. The defensive check for a record without a
preferences key (line 104) is dead code here: every stored record carries
one. -/
def update_user_profile (upd : UserProfileUpdate) (u : User) (db : ProfilesDb) :
    UserProfile × ProfilesDb :=
  let db1 :=
    if (alGet db u.username).isSome then db
    else alInsert db u.username (defaultProfile u)
  let p0 := (alGet db1 u.username).getD (defaultProfile u)
  let p1 :=
    match upd.email with
    | some e => { p0 with email := some e }
    | none => p0
  let p2 :=
    match upd.full_name with
    | some f => { p1 with full_name := some f }
    | none => p1
  let p3 :=
    match upd.bio with
    | some b => { p2 with bio := some b }
    | none => p2
  let p4 :=
    match upd.avatar_url with
    | some a => { p3 with avatar_url := some a }
    | none => p3
  let p5 :=
    match upd.preferences with
    | some ps => { p4 with preferences := alUpdate p4.preferences ps }
    | none => p4
  (p5, alInsert db1 u.username p5)

/-- users.py lines 114-126: GET /preferences. Read-only: returns the default
preferences when no record exists, without creating one. -/
def get_user_preferences (u : User) (db : ProfilesDb) :
    (List (String × Json)) × ProfilesDb :=
  match alGet db u.username with
  | none =>
    ( [ ("theme", Json.str "light"),
        ("notifications", Json.bool true),
        ("study_reminder", Json.bool false) ], db)
  | some p => (p.preferences, db)

/-- users.py lines 128-153: PUT /preferences. A missing record is created
with empty preferences, then the given keys are merged in with dict.update
and the merged preferences are returned. -/
def update_user_preferences (prefs : List (String × Json)) (u : User)
    (db : ProfilesDb) : (List (String × Json)) × ProfilesDb :=
  let db1 :=
    if (alGet db u.username).isSome then db
    else alInsert db u.username (emptyPrefsProfile u)
  let p0 := (alGet db1 u.username).getD (emptyPrefsProfile u)
  let p1 := { p0 with preferences := alUpdate p0.preferences prefs }
  (p1.preferences, alInsert db1 u.username p1)

/-! ## src/routers/docs.py -/

/-- docs.py lines 12-16: a documentation category. -/
structure DocCategory where
  id : String
  name : String
  description : String
  icon : String
deriving DecidableEq

/-- docs.py lines 18-23: a documentation item. -/
structure DocItem where
  id : String
  category_id : String
  title : String
  path : String
  summary : Option String
deriving DecidableEq

/-- An entry of a table of contents: level, title and anchor id. -/
structure TocEntry where
  level : Nat
  title : String
  id : String
deriving DecidableEq

/-- docs.py lines 25-30: the content of a documentation item. -/
structure DocContent where
  id : String
  title : String
  content : String
  toc : List TocEntry
  last_updated : String
deriving DecidableEq

/-- docs.py lines 33-70: the static category set. -/
def doc_categories : List DocCategory :=
  [ ⟨"architecture", "Architecture",
     "System architecture and design documentation", "cube"⟩,
    ⟨"user-guides", "User Guides",
     "Guides for using the Studi platform", "book-open"⟩,
    ⟨"development", "Development",
     "Documentation for developers", "code"⟩,
    ⟨"api", "API Documentation",
     "API reference and usage examples", "server"⟩,
    ⟨"deployment", "Deployment & Operations",
     "Deployment guides and operational procedures", "cloud"⟩,
    ⟨"security", "Security & Compliance",
     "Security documentation and compliance information", "shield-check"⟩ ]

/-- docs.py lines 72-143: the static item catalog, in insertion order. -/
def doc_items : List DocItem :=
  [ ⟨"architecture-overview", "architecture", "Architecture Overview",
     "/docs/ARCHITECTURE.md",
     some "Overview of the Studi system architecture"⟩,
    ⟨"agent-architecture", "architecture", "Agent Architecture",
     "/docs/AGENT_ARCHITECTURE.md",
     some "Details of the multi-agent AI system"⟩,
    ⟨"memory-system", "architecture", "Memory System",
     "/docs/MEMORY_SYSTEM.md",
     some "Documentation of the multi-layered memory system"⟩,
    ⟨"web-architecture", "architecture", "Web Architecture",
     "/docs/WEB_ARCHITECTURE.md",
     some "Web application architecture and components"⟩,
    ⟨"getting-started", "user-guides", "Getting Started",
     "/docs/user-guides/GETTING_STARTED.md",
     some "Guide for new users to get started with Studi"⟩,
    ⟨"canvas-integration", "user-guides", "Canvas LMS Integration",
     "/docs/user-guides/CANVAS_INTEGRATION.md",
     some "How to connect Studi with Canvas LMS"⟩,
    ⟨"study-guide-creation", "user-guides", "Creating Study Guides",
     "/docs/user-guides/STUDY_GUIDES.md",
     some "How to create and use personalized study guides"⟩,
    ⟨"api-overview", "api", "API Overview",
     "/docs/api/OVERVIEW.md",
     some "Overview of the Studi API"⟩,
    ⟨"authentication", "api", "Authentication",
     "/docs/api/AUTHENTICATION.md",
     some "API authentication methods and examples"⟩,
    ⟨"deployment-guide", "deployment", "Deployment Guide",
     "/docs/DEPLOYMENT.md",
     some "Guide for deploying Studi in production"⟩ ]

/-- docs.py lines 147-184: the single stored content blob
(key "architecture-overview"). -/
def architectureOverviewContent : DocContent :=
  { id := "architecture-overview",
    title := "Architecture Overview",
    content := "\n# Architecture Overview\n\nStudi is built on a modern, scalable architecture designed to provide a seamless learning experience.\n\n## Core Components\n\n- **Multi-Agent AI System**: Specialized AI agents for planning, knowledge creation, and task execution\n- **Memory System**: Multi-layered memory for context retention and knowledge creation\n- **Web Application**: React frontend with FastAPI backend\n- **Canvas LMS Integration**: Seamless connection to Canvas courses and assignments\n\n## System Diagram\n\n```\nUser <-> Web App <-> API Gateway <-> Agent System <-> Memory System\n                                  <-> Canvas API\n```\n\n## Data Flow\n\n1. User interacts with the web application\n2. Requests are processed by the API Gateway\n3. The Agent System handles complex tasks using specialized agents\n4. The Memory System stores and retrieves relevant information\n5. Canvas API integration provides access to course materials and assignments\n",
    toc :=
      [ ⟨1, "Architecture Overview", "architecture-overview"⟩,
        ⟨2, "Core Components", "core-components"⟩,
        ⟨2, "System Diagram", "system-diagram"⟩,
        ⟨2, "Data Flow", "data-flow"⟩ ],
    last_updated := "2023-06-15" }

/-- docs.py lines 146-185: the static content table. It holds exactly one
entry, a strict subset of the ten item ids. -/
def doc_content : List (String × DocContent) :=
  [("architecture-overview", architectureOverviewContent)]

/-- docs.py lines 204-217: GET /content/{doc_id}; the HTTPException 404 with
its detail string is embedded as an error result. -/
def get_doc_content (doc_id : String) : Except String DocContent :=
  match alGet doc_content doc_id with
  | none => Except.error ("Document with ID " ++ doc_id ++ " not found")
  | some c => Except.ok c

/-- docs.py lines 219-235: GET /search. Python truthiness of
item.get("summary") skips the summary check when the summary is absent or
the empty string. -/
def search_docs (query : String) : List DocItem :=
  doc_items.filter fun item =>
    strContains (strLower item.title) (strLower query) ||
      (match item.summary with
       | some s => !s.isEmpty && strContains (strLower s) (strLower query)
       | none => false)

/-- A concrete caller used to witness the profile-store theorems. -/
def bobUser : User :=
  ⟨"bob", none, none, true⟩

/-- A concrete stored record used to witness the profile-store theorems:
the starting preferences of the spec example (theme dark, notifications
true, no study_reminder key). -/
def bobProfile : UserProfile :=
  { username := "bob",
    email := none,
    full_name := none,
    bio := none,
    avatar_url := none,
    preferences :=
      [ ("theme", Json.str "dark"),
        ("notifications", Json.bool true) ] }

/-- A concrete store holding only bob. -/
def bobDb : ProfilesDb :=
  [("bob", bobProfile)]

/-- The partial update of the spec example: only study_reminder set. -/
def studyReminderUpdate : UserProfileUpdate :=
  ⟨none, none, none, none, some [("study_reminder", Json.bool true)]⟩

/-! ## Helper lemmas -/

theorem listStarts_append (n s : List Char) : listStarts n (n ++ s) = true := by
  induction n with
  | nil => rfl
  | cons a as ih => simp [listStarts, ih]

theorem listHas_of_starts (h n : List Char) (hs : listStarts n h = true) :
    listHas h n = true := by
  cases h with
  | nil => simpa [listHas] using hs
  | cons a as => simp [listHas, hs]

theorem listHas_append_left (p h n : List Char) (hh : listHas h n = true) :
    listHas (p ++ h) n = true := by
  induction p with
  | nil => simpa using hh
  | cons a as ih => simp [listHas, ih]

theorem strContains_append (pre q post : String) :
    strContains (pre ++ q ++ post) q = true := by
  unfold strContains
  have h1 : listStarts q.data (q.data ++ post.data) = true := listStarts_append _ _
  have h2 : listHas (q.data ++ post.data) q.data = true := listHas_of_starts _ _ h1
  have h3 := listHas_append_left pre.data _ _ h2
  have hdata : (pre ++ q ++ post).data = pre.data ++ (q.data ++ post.data) := by
    simp [List.append_assoc]
  rw [hdata]
  exact h3

theorem listHas_nil (h : List Char) : listHas h [] = true := by
  cases h <;> simp [listHas, listStarts]

theorem strContains_empty (s : String) : strContains s "" = true :=
  listHas_nil s.data

theorem alGet_alInsert {α : Type} (d : List (String × α)) (a k : String) (v : α) :
    alGet (alInsert d a v) k = if k = a then some v else alGet d k := by
  induction d with
  | nil => by_cases h : k = a <;> simp [alInsert, alGet, h]
  | cons kv rest ih =>
    obtain ⟨k2, w⟩ := kv
    by_cases h1 : a = k2
    · subst h1
      by_cases h2 : k = a <;> simp [alInsert, alGet, h2]
    · by_cases h2 : k = k2
      · subst h2
        have hka : ¬(k = a) := fun he => h1 (he ▸ rfl)
        simp [alInsert, alGet, h1, hka, Ne.symm h1]
      · simp [alInsert, alGet, h1, h2, Ne.symm h1, ih]

theorem alGet_alInsert_self {α : Type} (d : List (String × α)) (k : String)
    (v : α) : alGet (alInsert d k v) k = some v := by
  simp [alGet_alInsert]

theorem alGet_alInsert_ne {α : Type} (d : List (String × α)) (a k : String)
    (v : α) (h : k ≠ a) : alGet (alInsert d a v) k = alGet d k := by
  simp [alGet_alInsert, h]

theorem alInsert_get_self {α : Type} (d : List (String × α)) (k : String)
    (v : α) (hp : alGet d k = some v) : alInsert d k v = d := by
  induction d with
  | nil => simp [alGet] at hp
  | cons kv rest ih =>
    obtain ⟨k2, w⟩ := kv
    by_cases h : k = k2
    · subst h
      simp [alGet] at hp
      simp [alInsert, hp]
    · simp [alGet, h] at hp
      simp [alInsert, h, ih hp]

theorem alGet_alUpdate {α : Type} (u d : List (String × α)) (k : String) :
    alGet (alUpdate d u) k =
      match alGetLast u k with
      | some v => some v
      | none => alGet d k := by
  induction u generalizing d with
  | nil => simp [alUpdate, alGetLast]
  | cons kv rest ih =>
    obtain ⟨a, v⟩ := kv
    have hstep : alUpdate d ((a, v) :: rest) = alUpdate (alInsert d a v) rest := rfl
    rw [hstep, ih]
    cases hr : alGetLast rest k with
    | some w => simp [alGetLast, hr]
    | none =>
      by_cases h : k = a
      · subst h
        simp [alGetLast, hr, alGet_alInsert]
      · simp [alGetLast, hr, h, alGet_alInsert]

/-- Characterization of PUT /profile on an existing record: each provided
field overwrites, preferences are dict.update merged, and the store gets the
returned record at the callers key. -/
theorem update_user_profile_existing (upd : UserProfileUpdate) (u : User)
    (db : ProfilesDb) (p : UserProfile) (hp : alGet db u.username = some p) :
    (update_user_profile upd u db).1 =
      { username := p.username,
        email := pyOverride upd.email p.email,
        full_name := pyOverride upd.full_name p.full_name,
        bio := pyOverride upd.bio p.bio,
        avatar_url := pyOverride upd.avatar_url p.avatar_url,
        preferences :=
          match upd.preferences with
          | some ps => alUpdate p.preferences ps
          | none => p.preferences } ∧
    (update_user_profile upd u db).2 =
      alInsert db u.username (update_user_profile upd u db).1 := by
  obtain ⟨e, f, b, a, pr⟩ := upd
  cases e <;> cases f <;> cases b <;> cases a <;> cases pr <;>
    simp [update_user_profile, hp, pyOverride]

/-- Characterization of PUT /preferences on an existing record. -/
theorem update_user_preferences_existing (prefs : List (String × Json))
    (u : User) (db : ProfilesDb) (p : UserProfile)
    (hp : alGet db u.username = some p) :
    (update_user_preferences prefs u db).1 = alUpdate p.preferences prefs ∧
    (update_user_preferences prefs u db).2 =
      alInsert db u.username
        { p with preferences := alUpdate p.preferences prefs } := by
  simp [update_user_preferences, hp]

/-- PUT /profile touches no store entry other than the callers username. -/
theorem update_user_profile_frame (upd : UserProfileUpdate) (u : User)
    (db : ProfilesDb) (k : String) (hk : k ≠ u.username) :
    alGet (update_user_profile upd u db).2 k = alGet db k := by
  cases hp : alGet db u.username with
  | some p => simp [update_user_profile, hp, alGet_alInsert, hk]
  | none => simp [update_user_profile, hp, alGet_alInsert, hk]

/-- PUT /preferences touches no store entry other than the callers
username. -/
theorem update_user_preferences_frame (prefs : List (String × Json))
    (u : User) (db : ProfilesDb) (k : String) (hk : k ≠ u.username) :
    alGet (update_user_preferences prefs u db).2 k = alGet db k := by
  cases hp : alGet db u.username with
  | some p => simp [update_user_preferences, hp, alGet_alInsert, hk]
  | none => simp [update_user_preferences, hp, alGet_alInsert, hk]

/-! ## Claims -/

/-- C1: the synthesis function is deterministic and matches keywords
case-insensitively with first-match-wins precedence: a query containing
"study guide" (so also one containing both keywords) gets the study-guide
response with topic "Machine Learning Fundamentals" and exactly 2 sources;
otherwise a query containing "assignment" gets exactly 2 sources, different
from the study-guide ones; otherwise the response echoes the query verbatim,
sources is empty, and context.query_type is "general". -/
theorem C1_mock_agent_response_spec (q : String) (ctx : Option Json) :
    (strContains (strLower q) "study guide" = true →
      alGet (mock_agent_response q ctx).context "topic" =
          some "Machine Learning Fundamentals" ∧
        (mock_agent_response q ctx).sources.length = 2) ∧
    (strContains (strLower q) "study guide" = false →
      strContains (strLower q) "assignment" = true →
      (mock_agent_response q ctx).sources.length = 2 ∧
        (mock_agent_response q ctx).sources ≠
          [ ⟨"Textbook Chapter 5", "https://example.com/textbook/chapter5"⟩,
            ⟨"Lecture Notes Week 3", "https://example.com/lectures/week3"⟩ ]) ∧
    (strContains (strLower q) "study guide" = false →
      strContains (strLower q) "assignment" = false →
      strContains (mock_agent_response q ctx).response q = true ∧
        (mock_agent_response q ctx).sources = [] ∧
        alGet (mock_agent_response q ctx).context "query_type" = some "general") := by
  refine ⟨fun h1 => ?_, fun h1 h2 => ?_, fun h1 h2 => ?_⟩
  · simp only [mock_agent_response, h1, if_true]
    exact ⟨rfl, rfl⟩
  · simp only [mock_agent_response, h1, h2, if_true, if_false, Bool.false_eq_true]
    exact ⟨rfl, by decide⟩
  · have e : mock_agent_response q ctx =
        { response := "I understand you\x27re asking about: " ++ q ++ ". How can I help you with this topic?",
          sources := [],
          context :=
            [ ("query_type", "general"),
              ("timestamp", "2023-06-15T10:30:00Z") ] } := by
      simp [mock_agent_response, h1, h2]
    rw [e]
    exact ⟨strContains_append _ q _, rfl, rfl⟩

/-- Witness for C1 at concrete queries, one per branch; the first query
contains both keywords and still gets the study-guide response. -/
theorem C1_witness :
    (alGet (mock_agent_response "Make a Study Guide for this assignment" none).context
        "topic" = some "Machine Learning Fundamentals" ∧
      (mock_agent_response "Make a Study Guide for this assignment" none).sources.length = 2) ∧
    ((mock_agent_response "help with my Assignment" none).sources.length = 2 ∧
      (mock_agent_response "help with my Assignment" none).sources ≠
        [ ⟨"Textbook Chapter 5", "https://example.com/textbook/chapter5"⟩,
          ⟨"Lecture Notes Week 3", "https://example.com/lectures/week3"⟩ ]) ∧
    (strContains (mock_agent_response "hello there" none).response "hello there" = true ∧
      (mock_agent_response "hello there" none).sources = [] ∧
      alGet (mock_agent_response "hello there" none).context "query_type" = some "general") :=
  ⟨(C1_mock_agent_response_spec "Make a Study Guide for this assignment" none).1 (by decide),
   (C1_mock_agent_response_spec "help with my Assignment" none).2.1 (by decide) (by decide),
   (C1_mock_agent_response_spec "hello there" none).2.2 (by decide) (by decide)⟩

/-- C8: create_plan returns the same 4 steps with the same ids, descriptions
and statuses for every input query, and get_task_status reports status
in_progress, progress 0.65 and no result for every task id. -/
theorem C8_fixed_literal_stubs (q1 q2 task_id : String) :
    (create_plan q1).steps = (create_plan q2).steps ∧
    (create_plan q1).steps.length = 4 ∧
    (create_plan q1).steps =
      [ ⟨"1", "Analyze the query and identify key topics", "completed"⟩,
        ⟨"2", "Retrieve relevant information from knowledge base", "in_progress"⟩,
        ⟨"3", "Generate comprehensive response", "pending"⟩,
        ⟨"4", "Review and refine response for accuracy", "pending"⟩ ] ∧
    (get_task_status task_id).task_id = task_id ∧
    (get_task_status task_id).status = "in_progress" ∧
    (get_task_status task_id).progress = 0.65 ∧
    (get_task_status task_id).result = none :=
  ⟨rfl, rfl, rfl, rfl, rfl, rfl, rfl⟩

/-- Every parsed message gets either a synthesized response frame or an
error frame: the except arms of the loop body catch every failure. -/
theorem wsProcessMessage_total (m : Json) :
    (∃ r, wsProcessMessage m = agentResponseToJson r) ∨
      ∃ s, wsProcessMessage m = Json.obj [("error", Json.str s)] := by
  cases m with
  | obj fields =>
    simp only [wsProcessMessage]
    cases hq : (alGet fields "query").getD (Json.str "") with
    | str q => exact Or.inl ⟨_, rfl⟩
    | null => exact Or.inr ⟨_, rfl⟩
    | bool b => exact Or.inr ⟨_, rfl⟩
    | num n => exact Or.inr ⟨_, rfl⟩
    | arr xs => exact Or.inr ⟨_, rfl⟩
    | obj o => exact Or.inr ⟨_, rfl⟩
  | null => exact Or.inr ⟨_, rfl⟩
  | bool b => exact Or.inr ⟨_, rfl⟩
  | num n => exact Or.inr ⟨_, rfl⟩
  | str s => exact Or.inr ⟨_, rfl⟩
  | arr xs => exact Or.inr ⟨_, rfl⟩

/-- Every received text frame gets either a synthesized response frame or
an error frame. -/
theorem wsHandleFrame_total (parse : String → Option Json) (d : String) :
    (∃ r, wsHandleFrame parse d = agentResponseToJson r) ∨
      ∃ s, wsHandleFrame parse d = Json.obj [("error", Json.str s)] := by
  cases hp : parse d with
  | none => exact Or.inr ⟨"Invalid JSON format", by simp [wsHandleFrame, hp]⟩
  | some m =>
    have he : wsHandleFrame parse d = wsProcessMessage m := by
      simp [wsHandleFrame, hp]
    rw [he]
    exact wsProcessMessage_total m

/-- C2: in persistent-channel mode the loop sends exactly one reply frame
per incoming text frame and stays open: an unparseable frame gets exactly
the error object with text "Invalid JSON format"; a parsed object gets the
synthesis of its query field (defaulting to the empty string and empty
context mapping when absent); every other processing failure is surfaced as
an error frame; the loop exits, sending nothing further, exactly on peer
disconnect; and a channel that received an unparseable frame still processes
a subsequent valid frame normally. -/
theorem C2_websocket_loop_spec (parse : String → Option Json)
    (events rest : List WsEvent) (d d1 d2 : String) :
    wsLoop parse events = (wsTexts events).map (wsHandleFrame parse) ∧
    wsLoop parse (WsEvent.disconnect :: events) = [] ∧
    (parse d = none →
      wsHandleFrame parse d =
        Json.obj [("error", Json.str "Invalid JSON format")]) ∧
    (∀ fields q, parse d = some (Json.obj fields) →
      alGet fields "query" = some (Json.str q) →
      wsHandleFrame parse d =
        agentResponseToJson
          (mock_agent_response q
            (some ((alGet fields "context").getD (Json.obj []))))) ∧
    (∀ fields, parse d = some (Json.obj fields) →
      alGet fields "query" = none →
      wsHandleFrame parse d =
        agentResponseToJson
          (mock_agent_response ""
            (some ((alGet fields "context").getD (Json.obj []))))) ∧
    ((∃ r, wsHandleFrame parse d = agentResponseToJson r) ∨
      (∃ s, wsHandleFrame parse d = Json.obj [("error", Json.str s)])) ∧
    (parse d1 = none →
      wsLoop parse (WsEvent.text d1 :: WsEvent.text d2 :: rest) =
        Json.obj [("error", Json.str "Invalid JSON format")] ::
          wsHandleFrame parse d2 :: wsLoop parse rest) := by
  refine ⟨?_, rfl, fun h => ?_, fun fields q h1 h2 => ?_, fun fields h1 h2 => ?_,
    ?_, fun h => ?_⟩
  · induction events with
    | nil => rfl
    | cons e r2 ih => cases e <;> simp [wsLoop, wsTexts, ih]
  · simp [wsHandleFrame, h]
  · simp [wsHandleFrame, wsProcessMessage, h1, h2]
  · simp [wsHandleFrame, wsProcessMessage, h1, h2]
  · exact wsHandleFrame_total parse d
  · simp [wsLoop, wsHandleFrame, h]

/-- Witness for C2: with the concrete stand-in parser, the frame "bad" is
unparseable and answered with the error object, the channel stays open, and
the following valid frame "ok" is synthesized normally; the disconnect ends
the trace and the frame after it gets no reply. -/
theorem C2_websocket_witness :
    wsLoop wparse
        [WsEvent.text "bad", WsEvent.text "ok", WsEvent.disconnect,
          WsEvent.text "zz"] =
      [ Json.obj [("error", Json.str "Invalid JSON format")],
        agentResponseToJson (mock_agent_response "hi" (some (Json.obj []))) ] ∧
    wsHandleFrame wparse "ok" =
      agentResponseToJson (mock_agent_response "hi" (some (Json.obj []))) := by
  have h1 := C2_websocket_loop_spec wparse [] [] "bad" "bad" "ok"
  have h2 := C2_websocket_loop_spec wparse [] [] "ok" "bad" "ok"
  have hbad : wsHandleFrame wparse "bad" =
      Json.obj [("error", Json.str "Invalid JSON format")] :=
    h1.2.2.1 rfl
  have hok : wsHandleFrame wparse "ok" =
      agentResponseToJson (mock_agent_response "hi" (some (Json.obj []))) :=
    h2.2.2.2.1 [("query", Json.str "hi")] "hi" rfl rfl
  constructor
  · show wsHandleFrame wparse "bad" :: wsHandleFrame wparse "ok" :: [] = _
    rw [hbad, hok]
  · exact hok

/-- C3 counterexample: the identity alice carries an email and has zero
prior writes in the store; the lazily created profile copies that email
from the identity, so not every optional field of the new record is empty. -/
theorem C3_counterexample :
    (get_user_profile ⟨"alice", some "alice@example.com", none, true⟩
        fake_profiles_db).1.email ≠ none := by
  decide

/-- C3 (amended): for every identity with no record in the store, GET
/profile creates, persists and returns a record whose preferences are
exactly the documented defaults and whose bio and avatar are empty; its
email and full name are copied from the identity (so they are empty exactly
when the identity carries none). -/
theorem C3_get_profile_defaults (u : User) (db : ProfilesDb)
    (habs : alGet db u.username = none) :
    (get_user_profile u db).1 = defaultProfile u ∧
    (get_user_profile u db).1.preferences =
      [ ("theme", Json.str "light"),
        ("notifications", Json.bool true),
        ("study_reminder", Json.bool false) ] ∧
    (get_user_profile u db).1.bio = none ∧
    (get_user_profile u db).1.avatar_url = none ∧
    (get_user_profile u db).1.email = u.email ∧
    (get_user_profile u db).1.full_name = u.full_name ∧
    alGet (get_user_profile u db).2 u.username = some (defaultProfile u) := by
  have h1 : (get_user_profile u db).2 = alInsert db u.username (defaultProfile u) := by
    simp [get_user_profile, habs]
  have h2 : (get_user_profile u db).1 = defaultProfile u := by
    simp [get_user_profile, habs, alGet_alInsert_self]
  refine ⟨h2, ?_, ?_, ?_, ?_, ?_, ?_⟩ <;>
    simp [h2, h1, defaultProfile, defaultPreferences, alGet_alInsert_self]

/-- Witness for C3 (amended) at the concrete identity alice over the initial
store. -/
theorem C3_witness :
    (get_user_profile ⟨"alice", some "alice@example.com", none, true⟩
        fake_profiles_db).1 =
      defaultProfile ⟨"alice", some "alice@example.com", none, true⟩ ∧
    alGet (get_user_profile ⟨"alice", some "alice@example.com", none, true⟩
        fake_profiles_db).2 "alice" =
      some (defaultProfile ⟨"alice", some "alice@example.com", none, true⟩) := by
  have h := C3_get_profile_defaults
      ⟨"alice", some "alice@example.com", none, true⟩ fake_profiles_db rfl
  exact ⟨h.1, h.2.2.2.2.2.2⟩

/-- C4: PUT /profile on an existing record overwrites each provided
non-preference field, merges a provided preferences mapping key by key
(keys in the update added or overwritten, unmentioned keys preserved),
and both returns and stores the full updated record. -/
theorem C4_update_profile_merge (upd : UserProfileUpdate) (u : User)
    (db : ProfilesDb) (p : UserProfile) (hp : alGet db u.username = some p) :
    (∀ e, upd.email = some e →
      (update_user_profile upd u db).1.email = some e) ∧
    (upd.email = none →
      (update_user_profile upd u db).1.email = p.email) ∧
    (∀ f, upd.full_name = some f →
      (update_user_profile upd u db).1.full_name = some f) ∧
    (upd.full_name = none →
      (update_user_profile upd u db).1.full_name = p.full_name) ∧
    (∀ b, upd.bio = some b →
      (update_user_profile upd u db).1.bio = some b) ∧
    (upd.bio = none →
      (update_user_profile upd u db).1.bio = p.bio) ∧
    (∀ a, upd.avatar_url = some a →
      (update_user_profile upd u db).1.avatar_url = some a) ∧
    (upd.avatar_url = none →
      (update_user_profile upd u db).1.avatar_url = p.avatar_url) ∧
    (∀ ps k v, upd.preferences = some ps → alGetLast ps k = some v →
      alGet (update_user_profile upd u db).1.preferences k = some v) ∧
    (∀ ps k, upd.preferences = some ps → alGetLast ps k = none →
      alGet (update_user_profile upd u db).1.preferences k =
        alGet p.preferences k) ∧
    (upd.preferences = none →
      (update_user_profile upd u db).1.preferences = p.preferences) ∧
    alGet (update_user_profile upd u db).2 u.username =
      some (update_user_profile upd u db).1 := by
  obtain ⟨hr, hdb⟩ := update_user_profile_existing upd u db p hp
  refine ⟨?_, ?_, ?_, ?_, ?_, ?_, ?_, ?_, ?_, ?_, ?_, ?_⟩
  · intro e he; rw [hr]; simp [pyOverride, he]
  · intro he; rw [hr]; simp [pyOverride, he]
  · intro f hf; rw [hr]; simp [pyOverride, hf]
  · intro hf; rw [hr]; simp [pyOverride, hf]
  · intro b hb; rw [hr]; simp [pyOverride, hb]
  · intro hb; rw [hr]; simp [pyOverride, hb]
  · intro a ha; rw [hr]; simp [pyOverride, ha]
  · intro ha; rw [hr]; simp [pyOverride, ha]
  · intro ps k v hps hv
    rw [hr]; simp only [hps]
    rw [alGet_alUpdate, hv]
  · intro ps k hps hv
    rw [hr]; simp only [hps]
    rw [alGet_alUpdate, hv]
  · intro hps; rw [hr]; simp [hps]
  · rw [hdb]; exact alGet_alInsert_self _ _ _

/-- Witness for C4: the spec example. Starting preferences are theme dark
and notifications true; updating with study_reminder true alone yields all
three keys. -/
theorem C4_witness :
    alGet (update_user_profile studyReminderUpdate bobUser bobDb).1.preferences
        "theme" = some (Json.str "dark") ∧
    alGet (update_user_profile studyReminderUpdate bobUser bobDb).1.preferences
        "notifications" = some (Json.bool true) ∧
    alGet (update_user_profile studyReminderUpdate bobUser bobDb).1.preferences
        "study_reminder" = some (Json.bool true) := by
  have h := C4_update_profile_merge studyReminderUpdate bobUser bobDb bobProfile rfl
  refine ⟨?_, ?_, ?_⟩
  · exact (h.2.2.2.2.2.2.2.2.2.1 [("study_reminder", Json.bool true)] "theme"
      rfl rfl).trans rfl
  · exact (h.2.2.2.2.2.2.2.2.2.1 [("study_reminder", Json.bool true)]
      "notifications" rfl rfl).trans rfl
  · exact h.2.2.2.2.2.2.2.2.1 [("study_reminder", Json.bool true)]
      "study_reminder" (Json.bool true) rfl rfl

/-- C5: GET /content/{doc_id} fails with NotFound exactly when doc_id has no
entry in the static content table; on a matching id it returns the stored
content unchanged; and every content key is a valid DocItem id while some
DocItem id has no content entry (the content table is a strict subset of the
item table). -/
theorem C5_get_content_notfound (doc_id : String) :
    (alGet doc_content doc_id = none ↔
      get_doc_content doc_id =
        Except.error ("Document with ID " ++ doc_id ++ " not found")) ∧
    (∀ c, alGet doc_content doc_id = some c →
      get_doc_content doc_id = Except.ok c) ∧
    (∀ k c, alGet doc_content k = some c →
      (doc_items.map DocItem.id).contains k = true) ∧
    ((doc_items.map DocItem.id).contains "agent-architecture" = true ∧
      alGet doc_content "agent-architecture" = none) := by
  refine ⟨⟨fun h => ?_, fun h => ?_⟩, fun c h => ?_, fun k c h => ?_, by decide, rfl⟩
  · simp [get_doc_content, h]
  · cases hc : alGet doc_content doc_id with
    | none => rfl
    | some c => simp [get_doc_content, hc] at h
  · simp [get_doc_content, h]
  · by_cases hk : k = "architecture-overview"
    · subst hk; decide
    · simp [doc_content, alGet, hk] at h

/-- Witness for C5: the valid item id agent-architecture has no content and
fails; the id architecture-overview returns its stored content unchanged. -/
theorem C5_witness :
    get_doc_content "agent-architecture" =
      Except.error "Document with ID agent-architecture not found" ∧
    get_doc_content "architecture-overview" =
      Except.ok architectureOverviewContent ∧
    (doc_items.map DocItem.id).contains "architecture-overview" = true := by
  refine ⟨?_, ?_, ?_⟩
  · exact (C5_get_content_notfound "agent-architecture").1.mp rfl
  · exact (C5_get_content_notfound "architecture-overview").2.1
      architectureOverviewContent rfl
  · exact (C5_get_content_notfound "architecture-overview").2.2.1
      "architecture-overview" architectureOverviewContent rfl

/-- C6: search returns exactly the catalog items whose title contains the
query case-insensitively or whose summary is present and contains it
case-insensitively, in catalog insertion order (a sublist of the catalog,
no ranking); the empty query returns every item. -/
theorem C6_search_spec (q : String) :
    (∀ it : DocItem, it ∈ search_docs q ↔
      (it ∈ doc_items ∧
        (strContains (strLower it.title) (strLower q) = true ∨
          ∃ s, it.summary = some s ∧
            strContains (strLower s) (strLower q) = true))) ∧
    List.Sublist (search_docs q) doc_items ∧
    search_docs "" = doc_items := by
  have hsum : doc_items.all (fun it =>
      match it.summary with
      | some s => !s.isEmpty
      | none => true) = true := by decide
  refine ⟨fun it => ⟨fun h => ?_, fun h => ?_⟩, ?_, ?_⟩
  · have h2 := List.mem_filter.mp h
    refine ⟨h2.1, ?_⟩
    have h3 := h2.2
    rw [Bool.or_eq_true] at h3
    rcases h3 with ht | hs
    · exact Or.inl ht
    · cases hsm : it.summary with
      | none => rw [hsm] at hs; exact absurd hs (by simp)
      | some s =>
        rw [hsm] at hs
        rw [Bool.and_eq_true] at hs
        exact Or.inr ⟨s, rfl, hs.2⟩
  · obtain ⟨hmem, hcase⟩ := h
    refine List.mem_filter.mpr ⟨hmem, ?_⟩
    rw [Bool.or_eq_true]
    rcases hcase with ht | ⟨s, hsm, hc⟩
    · exact Or.inl ht
    · refine Or.inr ?_
      rw [hsm]
      have hall := List.all_eq_true.mp hsum it hmem
      rw [hsm] at hall
      rw [Bool.and_eq_true]
      exact ⟨hall, hc⟩
  · exact List.filter_sublist doc_items
  · apply List.filter_eq_self.mpr
    intro a _
    rw [Bool.or_eq_true]
    exact Or.inl (listHas_nil _)

/-- Witness for C6: the item whose title contains "architecture" is found by
that query, and the empty query returns the whole catalog. -/
theorem C6_witness :
    (⟨"agent-architecture", "architecture", "Agent Architecture",
        "/docs/AGENT_ARCHITECTURE.md",
        some "Details of the multi-agent AI system"⟩ : DocItem) ∈
      search_docs "architecture" ∧
    search_docs "" = doc_items := by
  refine ⟨?_, (C6_search_spec "x").2.2⟩
  exact ((C6_search_spec "architecture").1 _).mpr ⟨by decide, Or.inl (by decide)⟩

/-- C7: GET /preferences on an identity with no record returns the default
mapping and leaves the store unchanged, creating no record (unlike GET
/profile, which persists one); on an identity with a record it returns that
records preferences sub-mapping. -/
theorem C7_get_preferences_no_create (u : User) (db : ProfilesDb) :
    (alGet db u.username = none →
      (get_user_preferences u db).1 =
        [ ("theme", Json.str "light"),
          ("notifications", Json.bool true),
          ("study_reminder", Json.bool false) ] ∧
      (get_user_preferences u db).2 = db ∧
      alGet (get_user_preferences u db).2 u.username = none ∧
      alGet (get_user_profile u db).2 u.username = some (defaultProfile u)) ∧
    (∀ p, alGet db u.username = some p →
      (get_user_preferences u db).1 = p.preferences ∧
      (get_user_preferences u db).2 = db) := by
  constructor
  · intro h
    refine ⟨?_, ?_, ?_, ?_⟩ <;>
      simp [get_user_preferences, get_user_profile, h, alGet_alInsert_self]
  · intro p h
    constructor <;> simp [get_user_preferences, h]

/-- Witness for C7 at the absent identity alice and the present identity
johndoe over the initial store. -/
theorem C7_witness :
    (get_user_preferences ⟨"alice", none, none, true⟩ fake_profiles_db).1 =
      [ ("theme", Json.str "light"),
        ("notifications", Json.bool true),
        ("study_reminder", Json.bool false) ] ∧
    (get_user_preferences ⟨"alice", none, none, true⟩ fake_profiles_db).2 =
      fake_profiles_db ∧
    (get_user_preferences ⟨"johndoe", some "johndoe@example.com",
        some "John Doe", true⟩ fake_profiles_db).1 =
      johndoeProfile.preferences := by
  have h1 := (C7_get_preferences_no_create ⟨"alice", none, none, true⟩
      fake_profiles_db).1 rfl
  have h2 := (C7_get_preferences_no_create ⟨"johndoe", some "johndoe@example.com",
      some "John Doe", true⟩ fake_profiles_db).2 johndoeProfile rfl
  exact ⟨h1.1, h1.2.1, h2.1⟩

/-- C9: PUT /profile and PUT /preferences modify at most the store entry
keyed by the callers username: every other entry is unchanged, and the
username field of the callers existing record is never changed. -/
theorem C9_update_frame (upd : UserProfileUpdate)
    (prefs : List (String × Json)) (u : User) (db : ProfilesDb) :
    (∀ k, k ≠ u.username →
      alGet (update_user_profile upd u db).2 k = alGet db k ∧
      alGet (update_user_preferences prefs u db).2 k = alGet db k) ∧
    (∀ p, alGet db u.username = some p →
      (∃ p1, alGet (update_user_profile upd u db).2 u.username = some p1 ∧
        p1.username = p.username) ∧
      (∃ p2, alGet (update_user_preferences prefs u db).2 u.username = some p2 ∧
        p2.username = p.username)) := by
  constructor
  · intro k hk
    exact ⟨update_user_profile_frame upd u db k hk,
      update_user_preferences_frame prefs u db k hk⟩
  · intro p hp
    obtain ⟨hr, hdb⟩ := update_user_profile_existing upd u db p hp
    obtain ⟨hr2, hdb2⟩ := update_user_preferences_existing prefs u db p hp
    constructor
    · refine ⟨(update_user_profile upd u db).1, ?_, ?_⟩
      · rw [hdb]; exact alGet_alInsert_self _ _ _
      · rw [hr]
    · refine ⟨{ p with preferences := alUpdate p.preferences prefs }, ?_, rfl⟩
      rw [hdb2]; exact alGet_alInsert_self _ _ _

/-- Witness for C9: the johndoe caller updating profile and preferences
leaves the absent key bob absent and keeps its own username field. -/
theorem C9_witness :
    (alGet (update_user_profile studyReminderUpdate
        ⟨"johndoe", some "johndoe@example.com", some "John Doe", true⟩
        fake_profiles_db).2 "bob" = none ∧
      alGet (update_user_preferences [("theme", Json.str "light")]
        ⟨"johndoe", some "johndoe@example.com", some "John Doe", true⟩
        fake_profiles_db).2 "bob" = none) ∧
    (∃ p1, alGet (update_user_profile studyReminderUpdate
        ⟨"johndoe", some "johndoe@example.com", some "John Doe", true⟩
        fake_profiles_db).2 "johndoe" = some p1 ∧ p1.username = "johndoe") ∧
    (∃ p2, alGet (update_user_preferences [("theme", Json.str "light")]
        ⟨"johndoe", some "johndoe@example.com", some "John Doe", true⟩
        fake_profiles_db).2 "johndoe" = some p2 ∧ p2.username = "johndoe") := by
  have h := C9_update_frame studyReminderUpdate [("theme", Json.str "light")]
      ⟨"johndoe", some "johndoe@example.com", some "John Doe", true⟩
      fake_profiles_db
  have hf := h.1 "bob" (by decide)
  have he := h.2 johndoeProfile rfl
  exact ⟨⟨hf.1.trans rfl, hf.2.trans rfl⟩, he.1, he.2⟩

/-- C10: PUT /profile on an existing record with an update whose fields are
all absent returns the record unchanged and leaves the store unchanged; and
no optional field can ever be cleared back to empty through PUT /profile,
since absent fields are skipped and provided fields write a value. -/
theorem C10_update_profile_noop (u : User) (db : ProfilesDb) (p : UserProfile)
    (hp : alGet db u.username = some p) :
    (update_user_profile ⟨none, none, none, none, none⟩ u db).1 = p ∧
    (update_user_profile ⟨none, none, none, none, none⟩ u db).2 = db ∧
    (∀ upd : UserProfileUpdate,
      (p.email.isSome = true →
        (update_user_profile upd u db).1.email.isSome = true) ∧
      (p.full_name.isSome = true →
        (update_user_profile upd u db).1.full_name.isSome = true) ∧
      (p.bio.isSome = true →
        (update_user_profile upd u db).1.bio.isSome = true) ∧
      (p.avatar_url.isSome = true →
        (update_user_profile upd u db).1.avatar_url.isSome = true)) := by
  obtain ⟨hr0, hdb0⟩ :=
    update_user_profile_existing ⟨none, none, none, none, none⟩ u db p hp
  have h1 : (update_user_profile ⟨none, none, none, none, none⟩ u db).1 = p :=
    hr0.trans rfl
  have h2 : (update_user_profile ⟨none, none, none, none, none⟩ u db).2 = db := by
    rw [hdb0, h1]; exact alInsert_get_self _ _ _ hp
  refine ⟨h1, h2, fun upd => ?_⟩
  obtain ⟨hr, _⟩ := update_user_profile_existing upd u db p hp
  rw [hr]
  refine ⟨fun h => ?_, fun h => ?_, fun h => ?_, fun h => ?_⟩
  · cases he : upd.email <;> simp [pyOverride, he, h]
  · cases he : upd.full_name <;> simp [pyOverride, he, h]
  · cases he : upd.bio <;> simp [pyOverride, he, h]
  · cases he : upd.avatar_url <;> simp [pyOverride, he, h]

/-- Witness for C10 at the johndoe record over the initial store. -/
theorem C10_witness :
    (update_user_profile ⟨none, none, none, none, none⟩
        ⟨"johndoe", some "johndoe@example.com", some "John Doe", true⟩
        fake_profiles_db).1 = johndoeProfile ∧
    (update_user_profile ⟨none, none, none, none, none⟩
        ⟨"johndoe", some "johndoe@example.com", some "John Doe", true⟩
        fake_profiles_db).2 = fake_profiles_db ∧
    (update_user_profile studyReminderUpdate
        ⟨"johndoe", some "johndoe@example.com", some "John Doe", true⟩
        fake_profiles_db).1.email.isSome = true := by
  have h := C10_update_profile_noop
      ⟨"johndoe", some "johndoe@example.com", some "John Doe", true⟩
      fake_profiles_db johndoeProfile rfl
  exact ⟨h.1, h.2.1, (h.2.2 studyReminderUpdate).1 rfl⟩
